import Mathlib

/-
  Verification development for the audio delivery core (src/mumble/Audio.cpp):
  the LoopUser jitter buffer, the RecordUser pass-through source, and the
  Audio device-lifecycle functions.

  Modelling conventions:
  - QElapsedTimer values (milliseconds) and the double/float arithmetic on
    scheduled arrival keys are modelled exactly over the rationals.
  - rand() draws are modelled as a natural number in [0, RAND_MAX]; the
    DOUBLE_RAND macro rand()/static_cast<double>(RAND_MAX) is then exact
    rational division.
  - The global shared pointers g.ao / g.ai are modelled as Option values
    passed explicitly; a call to AudioOutput::addFrameToBuffer is recorded
    as a SinkCall value in the order the calls happen.
-/

/-- Modelled from the spec: PacketDataStream is code of this repository that
is not under src/.  Per the spec's byte-level contract, byte 0 of a packet
carries the message flags (top 3 bits = message type), followed by an
externally-defined integer encoding of the sequence number, followed by the
remaining payload bytes.  A packet is therefore modelled pre-parsed into
exactly those three parts: pds.next() yields flags, pds >> iSeq yields seq,
and pds.dataBlock(pds.left()) yields rest. -/
structure Packet where
  flags : Nat
  seq : Int
  rest : List Nat
  deriving Repr, DecidableEq

/-- One call to AudioOutput::addFrameToBuffer(this, payload, seq, msgType). -/
structure SinkCall where
  payload : List Nat
  seq : Int
  msgType : Nat
  deriving Repr, DecidableEq

/-- The reassembled delivery performed by LoopUser::fetchFrames (Audio.cpp
lines 148-163) and RecordUser::addFrame (lines 185-199): the payload is the
flags byte reattached in front of the remaining data, the sequence number is
the decoded one, and the message type is the top 3 bits of the flags byte. -/
def parseCall (p : Packet) : SinkCall :=
  ⟨p.flags :: p.rest, p.seq, (p.flags >>> 5) &&& 7⟩

/-- glibc RAND_MAX. -/
def RAND_MAX : Nat := 2147483647

/-- Audio.cpp line 28: #define DOUBLE_RAND (rand()/static_cast<double>(RAND_MAX)),
with the rand() result passed in as k ∈ [0, RAND_MAX]. -/
def DOUBLE_RAND (k : Nat) : ℚ := (k : ℚ) / (RAND_MAX : ℚ)

/-- The configuration fields of g.s read by this file. -/
structure Settings where
  dPacketLoss : ℚ
  dMaxPacketDelay : ℚ
  deriving Repr, DecidableEq

/-- The mutable LoopUser state touched by addFrame/fetchFrames: the pending
QMultiMap<float, QByteArray> qmPackets (kept in ascending key order, as a
list) and the instant, on the qetTicker clock, at which qetLastFetch last
(re)started.  qetLastFetch.elapsed() at ticker time t is t - lastFetch. -/
structure LoopUserState where
  qmPackets : List (ℚ × Packet)
  lastFetch : ℚ
  deriving Repr, DecidableEq

/-- QMultiMap::insert: the new entry is placed before the first entry whose
key is ≥ the new key, keeping the list in ascending key order (among equal
keys the most recently inserted comes first, as in Qt). -/
def mmInsert (k : ℚ) (v : Packet) : List (ℚ × Packet) → List (ℚ × Packet)
  | [] => [(k, v)]
  | e :: rest => if k ≤ e.1 then (k, v) :: e :: rest else e :: mmInsert k v rest

namespace LoopUser

/-- LoopUser::addFrame (Audio.cpp lines 100-130).  lossDraw and delayDraw are
the two rand() results; t1 is the qetTicker time at which the locked section
runs (line 108 reads qetLastFetch.elapsed() and line 110 reads
qetTicker.elapsed() there) and t2 the qetTicker time of the restart re-check
at line 122.  ao is the strong reference obtained from g.ao at line 123.
Returns the updated state and the addFrameToBuffer calls made. -/
def addFrame (s : Settings) (lossDraw delayDraw : Nat) (t1 t2 : ℚ)
    (ao : Option Unit) (packet : Packet) (st : LoopUserState) :
    LoopUserState × List SinkCall :=
  if DOUBLE_RAND lossDraw < s.dPacketLoss then
    (st, [])
  else
    let restart : Bool := decide (100 < t1 - st.lastFetch)
    let time : ℚ := t1
    let r : ℚ := if restart then 0 else DOUBLE_RAND delayDraw * s.dMaxPacketDelay
    let st' : LoopUserState := { st with qmPackets := mmInsert (time + r) packet st.qmPackets }
    if 100 < t2 - st.lastFetch then
      match ao with
      | some _ => (st', [⟨[], 0, (packet.flags >>> 5) &&& 7⟩])
      | none => (st', [])
    else
      (st', [])

/-- LoopUser::fetchFrames (Audio.cpp lines 132-168).  ao is the strong
reference taken from g.ao at line 135; now is qetTicker.elapsed() read at
line 140.  If the reference is absent or the pending map is empty the
function returns at line 137 without touching qetLastFetch.  Otherwise every
entry whose key is not greater than now is removed in map order and delivered,
and qetLastFetch restarts. -/
def fetchFrames (ao : Option Unit) (now : ℚ) (st : LoopUserState) :
    LoopUserState × List SinkCall :=
  match ao with
  | none => (st, [])
  | some _ =>
    if st.qmPackets.isEmpty then (st, [])
    else
      let delivered := st.qmPackets.takeWhile (fun e => decide (e.1 ≤ now))
      let remaining := st.qmPackets.dropWhile (fun e => decide (e.1 ≤ now))
      (⟨remaining, now⟩, delivered.map (fun e => parseCall e.2))

end LoopUser

namespace RecordUser

/-- RecordUser::addFrame (Audio.cpp lines 180-200): take the g.ao strong
reference first; if absent return with no effect, otherwise parse the packet
and deliver it immediately.  No state is read or written, no random draw is
made and no settings field is consulted. -/
def addFrame (ao : Option Unit) (packet : Packet) : List SinkCall :=
  match ao with
  | none => []
  | some _ => [parseCall packet]

end RecordUser

/-- QThread::Priority (Qt), with its numeric values. -/
inductive QThreadPriority
  | IdlePriority
  | LowestPriority
  | LowPriority
  | NormalPriority
  | HighPriority
  | HighestPriority
  | TimeCriticalPriority
  | InheritPriority
  deriving Repr, DecidableEq

/-- The numeric value of a QThread::Priority (Qt enum values 0-7). -/
def QThreadPriority.val : QThreadPriority → Nat
  | .IdlePriority => 0
  | .LowestPriority => 1
  | .LowPriority => 2
  | .NormalPriority => 3
  | .HighPriority => 4
  | .HighestPriority => 5
  | .TimeCriticalPriority => 6
  | .InheritPriority => 7

/-- The process-wide shared device handles g.ao and g.ai, each holding (or
not) a device instance identified by a number distinguishing instances. -/
structure AudioGlobals where
  ao : Option Nat
  ai : Option Nat
  deriving Repr, DecidableEq

namespace Audio

/-- Audio::startOutput (Audio.cpp lines 202-206): g.ao is assigned the result
of AudioOutputRegistrar::newFromChoice(output) (modelled by the resolver
argument), and if that result is non-null its thread starts at
QThread::HighPriority.  Returns the new globals and the priority the device
thread was started with, if any. -/
def startOutput (resolveOut : String → Option Nat) (output : String)
    (g : AudioGlobals) : AudioGlobals × Option QThreadPriority :=
  let g' : AudioGlobals := { g with ao := resolveOut output }
  match g'.ao with
  | some _ => (g', some .HighPriority)
  | none => (g', none)

/-- Audio::startInput (Audio.cpp lines 235-239): g.ai is assigned the result
of AudioInputRegistrar::newFromChoice(input), and if non-null its thread
starts at QThread::HighestPriority. -/
def startInput (resolveIn : String → Option Nat) (input : String)
    (g : AudioGlobals) : AudioGlobals × Option QThreadPriority :=
  let g' : AudioGlobals := { g with ai := resolveIn input }
  match g'.ai with
  | some _ => (g', some .HighestPriority)
  | none => (g', none)

end Audio

/-- Reflexive-transitive closure of a step relation: the states reachable by
an interleaved execution. -/
inductive Reach {σ : Type} (step : σ → σ → Prop) : σ → σ → Prop
  | refl (s : σ) : Reach step s s
  | tail (s t u : σ) : Reach step s t → step t u → Reach step s u

/-- Program counter of the control thread running Audio::stopOutput
(Audio.cpp lines 208-233). -/
inductive StopPC
  | preCopy
  | preClear
  | spinning
  | finished
  deriving Repr, DecidableEq

/-- Shared-ownership state of the render device instance being stopped:
whether g.ao still points at it, whether stopOutput's local copy ao holds a
strong reference, how many strong references all other threads hold, and
whether the AudioOutput destructor has run. -/
structure StopState where
  pc : StopPC
  gao : Bool
  localRef : Bool
  otherRefs : Nat
  destroyed : Bool
  deriving Repr, DecidableEq

/-- The shared_ptr use count of the device instance. -/
def StopState.count (s : StopState) : Nat :=
  (if s.gao then 1 else 0) + (if s.localRef then 1 else 0) + s.otherRefs

/-- One interleaved step: the control thread executes the next statement of
Audio::stopOutput, or some other thread copies a shared_ptr (only possible
from the process-wide g.ao, or from a reference it already holds) or drops
one.  Whatever drops the use count to zero runs the destructor. -/
inductive StopStep : StopState → StopState → Prop
  | copy (s : StopState) (h : s.pc = .preCopy) :
      StopStep s { s with pc := .preClear, localRef := s.gao }
  | clear (s : StopState) (h : s.pc = .preClear) :
      StopStep s { s with pc := .spinning, gao := false, destroyed := s.destroyed || (s.gao && !s.localRef && decide (s.otherRefs = 0)) }
  | spinYield (s : StopState) (h : s.pc = .spinning) (hl : s.localRef = true)
      (hc : s.count ≠ 1) :
      StopStep s s
  | release (s : StopState) (h : s.pc = .spinning)
      (hc : s.localRef = false ∨ s.count = 1) :
      StopStep s { s with pc := .finished, localRef := false, destroyed := s.destroyed || (s.localRef && decide (s.count = 1)) }
  | envAcquire (s : StopState) (h : s.gao = true) :
      StopStep s { s with otherRefs := s.otherRefs + 1 }
  | envDup (s : StopState) (h : 0 < s.otherRefs) :
      StopStep s { s with otherRefs := s.otherRefs + 1 }
  | envRelease (s : StopState) (h : 0 < s.otherRefs) :
      StopStep s { s with otherRefs := s.otherRefs - 1, destroyed := s.destroyed || (!s.gao && !s.localRef && decide (s.otherRefs = 1)) }

/-- Entry into Audio::stopOutput with an active render device and n strong
references held by background threads. -/
def stopOutputInit (n : Nat) : StopState :=
  ⟨.preCopy, true, false, n, false⟩

/-- The inductive invariant of the stopOutput machine. -/
def StopInv (s : StopState) : Prop :=
  match s.pc with
  | .preCopy => s.gao = true ∧ s.localRef = false ∧ s.destroyed = false
  | .preClear => s.gao = true ∧ s.localRef = true ∧ s.destroyed = false
  | .spinning => s.gao = false ∧ s.localRef = true ∧ s.destroyed = false
  | .finished => s.gao = false ∧ s.localRef = false ∧ s.destroyed = true ∧ s.otherRefs = 0

/-- Program counter of the control thread running the combined Audio::stop
(Audio.cpp lines 273-304): copy g.ai (line 277), copy g.ao (line 278), reset
g.ao (line 282), reset g.ai (line 283), spin (lines 287-289), reset the local
ai copy (line 302), reset the local ao copy (line 303). -/
inductive StopAllPC
  | preCopyAi
  | preCopyAo
  | preClearAo
  | preClearAi
  | spinning
  | preResetAo
  | finished
  deriving Repr, DecidableEq

/-- Shared-ownership state of the capture (ai) and render (ao) device
instances being stopped by Audio::stop. -/
structure StopAllState where
  pc : StopAllPC
  gai : Bool
  gao : Bool
  lai : Bool
  lao : Bool
  othersI : Nat
  othersO : Nat
  dIn : Bool
  dOut : Bool
  deriving Repr, DecidableEq

/-- shared_ptr use count of the capture device instance. -/
def StopAllState.countI (s : StopAllState) : Nat :=
  (if s.gai then 1 else 0) + (if s.lai then 1 else 0) + s.othersI

/-- shared_ptr use count of the render device instance. -/
def StopAllState.countO (s : StopAllState) : Nat :=
  (if s.gao then 1 else 0) + (if s.lao then 1 else 0) + s.othersO

/-- One interleaved step of Audio::stop against background threads that may
copy g.ai / g.ao (or duplicate a reference they already hold) and drop
references.  Whatever drops a use count to zero runs that destructor. -/
inductive StopAllStep : StopAllState → StopAllState → Prop
  | copyAi (s : StopAllState) (h : s.pc = .preCopyAi) :
      StopAllStep s { s with pc := .preCopyAo, lai := s.gai }
  | copyAo (s : StopAllState) (h : s.pc = .preCopyAo) :
      StopAllStep s { s with pc := .preClearAo, lao := s.gao }
  | clearAo (s : StopAllState) (h : s.pc = .preClearAo) :
      StopAllStep s { s with pc := .preClearAi, gao := false, dOut := s.dOut || (s.gao && !s.lao && decide (s.othersO = 0)) }
  | clearAi (s : StopAllState) (h : s.pc = .preClearAi) :
      StopAllStep s { s with pc := .spinning, gai := false, dIn := s.dIn || (s.gai && !s.lai && decide (s.othersI = 0)) }
  | spinYield (s : StopAllState) (h : s.pc = .spinning)
      (hc : (s.lai = true ∧ s.countI ≠ 1) ∨ (s.lao = true ∧ s.countO ≠ 1)) :
      StopAllStep s s
  | releaseAi (s : StopAllState) (h : s.pc = .spinning)
      (hi : s.lai = false ∨ s.countI = 1) (ho : s.lao = false ∨ s.countO = 1) :
      StopAllStep s { s with pc := .preResetAo, lai := false, dIn := s.dIn || (s.lai && decide (s.countI = 1)) }
  | releaseAo (s : StopAllState) (h : s.pc = .preResetAo) :
      StopAllStep s { s with pc := .finished, lao := false, dOut := s.dOut || (s.lao && decide (s.countO = 1)) }
  | envAcquireI (s : StopAllState) (h : s.gai = true) :
      StopAllStep s { s with othersI := s.othersI + 1 }
  | envAcquireO (s : StopAllState) (h : s.gao = true) :
      StopAllStep s { s with othersO := s.othersO + 1 }
  | envDupI (s : StopAllState) (h : 0 < s.othersI) :
      StopAllStep s { s with othersI := s.othersI + 1 }
  | envDupO (s : StopAllState) (h : 0 < s.othersO) :
      StopAllStep s { s with othersO := s.othersO + 1 }
  | envReleaseI (s : StopAllState) (h : 0 < s.othersI) :
      StopAllStep s { s with othersI := s.othersI - 1, dIn := s.dIn || (!s.gai && !s.lai && decide (s.othersI = 1)) }
  | envReleaseO (s : StopAllState) (h : 0 < s.othersO) :
      StopAllStep s { s with othersO := s.othersO - 1, dOut := s.dOut || (!s.gao && !s.lao && decide (s.othersO = 1)) }

/-- Entry into Audio::stop with both devices active and n (resp. m) strong
references held by background threads to the capture (resp. render) device. -/
def stopAllInit (n m : Nat) : StopAllState :=
  ⟨.preCopyAi, true, true, false, false, n, m, false, false⟩

/-- The inductive invariant of the Audio::stop machine. -/
def StopAllInv (s : StopAllState) : Prop :=
  match s.pc with
  | .preCopyAi => s.gai = true ∧ s.gao = true ∧ s.lai = false ∧ s.lao = false ∧ s.dIn = false ∧ s.dOut = false
  | .preCopyAo => s.gai = true ∧ s.gao = true ∧ s.lai = true ∧ s.lao = false ∧ s.dIn = false ∧ s.dOut = false
  | .preClearAo => s.gai = true ∧ s.gao = true ∧ s.lai = true ∧ s.lao = true ∧ s.dIn = false ∧ s.dOut = false
  | .preClearAi => s.gai = true ∧ s.gao = false ∧ s.lai = true ∧ s.lao = true ∧ s.dIn = false ∧ s.dOut = false
  | .spinning => s.gai = false ∧ s.gao = false ∧ s.lai = true ∧ s.lao = true ∧ s.dIn = false ∧ s.dOut = false
  | .preResetAo => s.gai = false ∧ s.gao = false ∧ s.lai = false ∧ s.lao = true ∧ s.dIn = true ∧ s.dOut = false ∧ s.othersI = 0 ∧ s.othersO = 0
  | .finished => s.gai = false ∧ s.gao = false ∧ s.lai = false ∧ s.lao = false ∧ s.dIn = true ∧ s.dOut = true ∧ s.othersI = 0 ∧ s.othersO = 0

/-- Test double for the backend registrar: a selector string for use in
closed statements. -/
def choice0 : String := ""

/-- Test double: backend resolution that yields device instance d. -/
def resolveConst (d : Nat) : String → Option Nat :=
  fun _ => some d

/-- Test double: backend resolution that fails. -/
def resolveFail : String → Option Nat :=
  fun _ => none

theorem stopInv_step {s t : StopState} (hinv : StopInv s) (h : StopStep s t) :
    StopInv t := by
  obtain ⟨pc, gao, localRef, otherRefs, destroyed⟩ := s
  cases h with
  | copy h => cases pc <;> simp_all [StopInv]
  | clear h => cases pc <;> simp_all [StopInv]
  | spinYield h hl hc => exact hinv
  | release h hc => cases pc <;> simp_all [StopInv, StopState.count]
  | envAcquire h => cases pc <;> simp_all [StopInv]
  | envDup h => cases pc <;> simp_all [StopInv]
  | envRelease h => cases pc <;> simp_all [StopInv]

theorem stopInv_reach {n : Nat} {s : StopState}
    (h : Reach StopStep (stopOutputInit n) s) : StopInv s := by
  induction h with
  | refl => simp [stopOutputInit, StopInv]
  | tail t u h1 h2 ih => exact stopInv_step ih h2

theorem stopAllInv_step {s t : StopAllState} (hinv : StopAllInv s)
    (h : StopAllStep s t) : StopAllInv t := by
  obtain ⟨pc, gai, gao, lai, lao, othersI, othersO, dIn, dOut⟩ := s
  cases h with
  | copyAi h => cases pc <;> simp_all [StopAllInv]
  | copyAo h => cases pc <;> simp_all [StopAllInv]
  | clearAo h => cases pc <;> simp_all [StopAllInv]
  | clearAi h => cases pc <;> simp_all [StopAllInv]
  | spinYield h hc => exact hinv
  | releaseAi h hi ho => cases pc <;> simp_all [StopAllInv, StopAllState.countI, StopAllState.countO]
  | releaseAo h => cases pc <;> simp_all [StopAllInv, StopAllState.countO]
  | envAcquireI h => cases pc <;> simp_all [StopAllInv]
  | envAcquireO h => cases pc <;> simp_all [StopAllInv]
  | envDupI h => cases pc <;> simp_all [StopAllInv]
  | envDupO h => cases pc <;> simp_all [StopAllInv]
  | envReleaseI h => cases pc <;> simp_all [StopAllInv]
  | envReleaseO h => cases pc <;> simp_all [StopAllInv]

theorem stopAllInv_reach {n m : Nat} {s : StopAllState}
    (h : Reach StopAllStep (stopAllInit n m) s) : StopAllInv s := by
  induction h with
  | refl => simp [stopAllInit, StopAllInv]
  | tail t u h1 h2 ih => exact stopAllInv_step ih h2

theorem DOUBLE_RAND_nonneg (k : Nat) : 0 ≤ DOUBLE_RAND k := by
  unfold DOUBLE_RAND
  positivity

theorem DOUBLE_RAND_le_one {k : Nat} (h : k ≤ RAND_MAX) : DOUBLE_RAND k ≤ 1 := by
  unfold DOUBLE_RAND
  rw [div_le_one (by norm_num [RAND_MAX])]
  exact_mod_cast h

theorem DOUBLE_RAND_lt_one {k : Nat} (h : k < RAND_MAX) : DOUBLE_RAND k < 1 := by
  unfold DOUBLE_RAND
  rw [div_lt_one (by norm_num [RAND_MAX])]
  exact_mod_cast h

theorem mmInsert_length (k : ℚ) (v : Packet) (l : List (ℚ × Packet)) :
    (mmInsert k v l).length = l.length + 1 := by
  induction l with
  | nil => rfl
  | cons e rest ih => by_cases h : k ≤ e.1 <;> simp [mmInsert, h, ih]

theorem mmInsert_mem (k : ℚ) (v : Packet) (l : List (ℚ × Packet)) (x : ℚ × Packet) :
    x ∈ mmInsert k v l ↔ x = (k, v) ∨ x ∈ l := by
  induction l with
  | nil => simp [mmInsert]
  | cons e rest ih =>
    by_cases h : k ≤ e.1 <;> simp [mmInsert, h, ih]
    tauto

theorem mmInsert_pairwise (k : ℚ) (v : Packet) (l : List (ℚ × Packet))
    (h : List.Pairwise (fun a b => a.1 ≤ b.1) l) :
    List.Pairwise (fun a b => a.1 ≤ b.1) (mmInsert k v l) := by
  induction l with
  | nil => simp [mmInsert]
  | cons e rest ih =>
    simp only [List.pairwise_cons] at h
    obtain ⟨he, hrest⟩ := h
    by_cases hk : k ≤ e.1
    · simp only [mmInsert, if_pos hk, List.pairwise_cons]
      refine ⟨?_, he, hrest⟩
      intro x hx
      rcases List.mem_cons.mp hx with hx | hx
      · exact hx ▸ hk
      · exact le_trans hk (he x hx)
    · simp only [mmInsert, if_neg hk, List.pairwise_cons]
      refine ⟨?_, ih hrest⟩
      intro x hx
      rcases (mmInsert_mem k v rest x).mp hx with hx | hx
      · exact hx ▸ le_of_lt (not_le.mp hk)
      · exact he x hx

theorem sorted_takeWhile_filter (now : ℚ) (l : List (ℚ × Packet))
    (h : List.Pairwise (fun a b => a.1 ≤ b.1) l) :
    l.takeWhile (fun e => decide (e.1 ≤ now)) = l.filter (fun e => decide (e.1 ≤ now)) ∧
    l.dropWhile (fun e => decide (e.1 ≤ now)) = l.filter (fun e => decide (now < e.1)) := by
  induction l with
  | nil => simp
  | cons e rest ih =>
    simp only [List.pairwise_cons] at h
    obtain ⟨he, hrest⟩ := h
    obtain ⟨ih1, ih2⟩ := ih hrest
    by_cases hk : e.1 ≤ now
    · simp [List.takeWhile_cons, List.dropWhile_cons, List.filter_cons, hk, not_lt.mpr hk, ih1, ih2]
    · have hlt : now < e.1 := not_le.mp hk
      have hall : ∀ x ∈ rest, now < x.1 := fun x hx => lt_of_lt_of_le hlt (he x hx)
      have hnil : List.filter (fun x => decide (x.1 ≤ now)) rest = [] := by
        rw [List.filter_eq_nil_iff]
        intro x hx
        simp [not_le.mpr (hall x hx)]
      have hself : List.filter (fun x => decide (now < x.1)) rest = rest := by
        rw [List.filter_eq_self]
        intro x hx
        simp [hall x hx]
      constructor
      · simp [List.takeWhile_cons, List.filter_cons, hk, hnil]
      · simp [List.dropWhile_cons, List.filter_cons, hk, hlt, hself]

/-- C3: for every pending collection (in its ascending-key map order) and
every current time now, fetchFrames with a present sink removes exactly the
entries whose key is at most now, delivers their parsed frames to the sink
in non-decreasing key order, and leaves exactly the entries with key greater
than now pending. -/
theorem fetchFrames_drains_due_entries_in_order (now : ℚ) (st : LoopUserState)
    (hsorted : List.Pairwise (fun a b => a.1 ≤ b.1) st.qmPackets) :
    (LoopUser.fetchFrames (some ()) now st).1.qmPackets
        = st.qmPackets.filter (fun e => decide (now < e.1)) ∧
    (LoopUser.fetchFrames (some ()) now st).2
        = (st.qmPackets.filter (fun e => decide (e.1 ≤ now))).map (fun e => parseCall e.2) ∧
    List.Pairwise (· ≤ ·)
        ((st.qmPackets.filter (fun e => decide (e.1 ≤ now))).map Prod.fst) := by
  obtain ⟨l, lf⟩ := st
  obtain ⟨ht, hd⟩ := sorted_takeWhile_filter now l hsorted
  refine ⟨?_, ?_, ?_⟩
  · cases l with
    | nil => simp [LoopUser.fetchFrames]
    | cons e rest => simpa [LoopUser.fetchFrames] using hd
  · cases l with
    | nil => simp [LoopUser.fetchFrames]
    | cons e rest => simp [LoopUser.fetchFrames, ht]
  · rw [List.pairwise_map]
    exact List.Pairwise.filter _ hsorted

/-- Witness for C3, matching the spec example: entries with keys 1, 3, 5
pending and now = 5 are all delivered, in the order 1, 3, 5. -/
theorem fetchFrames_drains_due_entries_in_order_witness :
    (LoopUser.fetchFrames (some ()) 5 ⟨[(1, ⟨32, 7, [9]⟩), (3, ⟨64, 8, []⟩), (5, ⟨96, 9, []⟩)], 0⟩).1.qmPackets = [] ∧
    (LoopUser.fetchFrames (some ()) 5 ⟨[(1, ⟨32, 7, [9]⟩), (3, ⟨64, 8, []⟩), (5, ⟨96, 9, []⟩)], 0⟩).2
      = [⟨[32, 9], 7, 1⟩, ⟨[64], 8, 2⟩, ⟨[96], 9, 3⟩] := by
  have h := fetchFrames_drains_due_entries_in_order 5
      ⟨[(1, ⟨32, 7, [9]⟩), (3, ⟨64, 8, []⟩), (5, ⟨96, 9, []⟩)], 0⟩ (by decide)
  refine ⟨?_, ?_⟩
  · rw [h.1]
    with_unfolding_all rfl
  · rw [h.2.1]
    with_unfolding_all rfl

/-- C4: an addFrame call on the loopback source more than 100ms after the
last successful drain schedules the surviving frame with zero delay (key =
current ticker time) and, with a render device active, pushes a priming
frame (empty payload, sequence 0, the incoming frame message type) directly
to the sink; within 100ms the delay is instead DOUBLE_RAND * dMaxPacketDelay,
a value in [0, dMaxPacketDelay].  The two 100ms readings (locked section at
t1, re-check at t2) are both above threshold in the stalled case. -/
theorem addFrame_restart_zero_delay_and_priming (s : Settings)
    (lossDraw delayDraw : Nat) (t1 t2 : ℚ) (ao : Option Unit) (packet : Packet)
    (st : LoopUserState) (hsurv : ¬ DOUBLE_RAND lossDraw < s.dPacketLoss) :
    (100 < t1 - st.lastFetch →
      (LoopUser.addFrame s lossDraw delayDraw t1 t2 ao packet st).1.qmPackets
        = mmInsert t1 packet st.qmPackets) ∧
    (100 < t2 - st.lastFetch → ao = some () →
      (LoopUser.addFrame s lossDraw delayDraw t1 t2 ao packet st).2
        = [⟨[], 0, (packet.flags >>> 5) &&& 7⟩]) ∧
    (¬ 100 < t1 - st.lastFetch → delayDraw ≤ RAND_MAX → 0 ≤ s.dMaxPacketDelay →
      ∃ r : ℚ, 0 ≤ r ∧ r ≤ s.dMaxPacketDelay ∧
        (LoopUser.addFrame s lossDraw delayDraw t1 t2 ao packet st).1.qmPackets
          = mmInsert (t1 + r) packet st.qmPackets) := by
  refine ⟨fun h1 => ?_, fun h2 hao => ?_, fun h1 hdk hdm => ?_⟩
  · by_cases h2 : 100 < t2 - st.lastFetch <;> cases ao <;>
      simp [LoopUser.addFrame, if_neg hsurv, h1, h2]
  · subst hao
    simp [LoopUser.addFrame, if_neg hsurv, h2]
  · refine ⟨DOUBLE_RAND delayDraw * s.dMaxPacketDelay, mul_nonneg (DOUBLE_RAND_nonneg _) hdm, ?_, ?_⟩
    · calc DOUBLE_RAND delayDraw * s.dMaxPacketDelay
          ≤ 1 * s.dMaxPacketDelay := mul_le_mul_of_nonneg_right (DOUBLE_RAND_le_one hdk) hdm
      _ = s.dMaxPacketDelay := one_mul _
    · by_cases h2 : 100 < t2 - st.lastFetch <;> cases ao <;>
        simp [LoopUser.addFrame, if_neg hsurv, h1, h2]

/-- Witness for C4: loss probability 0, max delay 10, draws 0, 200ms since
the last drain, sink present: the entry is inserted at key 200 (zero delay)
and the priming call (empty payload, sequence 0, message type 1) is made. -/
theorem addFrame_restart_zero_delay_and_priming_witness :
    (100 : ℚ) < 200 - 0 ∧
    (LoopUser.addFrame ⟨0, 10⟩ 0 0 200 200 (some ()) ⟨32, 7, [9]⟩ ⟨[], 0⟩).1.qmPackets
      = [(200, ⟨32, 7, [9]⟩)] ∧
    (LoopUser.addFrame ⟨0, 10⟩ 0 0 200 200 (some ()) ⟨32, 7, [9]⟩ ⟨[], 0⟩).2
      = [⟨[], 0, 1⟩] := by
  have h := addFrame_restart_zero_delay_and_priming ⟨0, 10⟩ 0 0 200 200 (some ())
      ⟨32, 7, [9]⟩ ⟨[], 0⟩ (by with_unfolding_all decide)
  refine ⟨by with_unfolding_all decide, ?_, ?_⟩
  · rw [h.1 (by with_unfolding_all decide)]
    with_unfolding_all rfl
  · rw [h.2.1 (by with_unfolding_all decide) rfl]
    rfl

/-- C5 counterexample: a fetchFrames call with a sink present but an empty
pending collection returns at the early-out (Audio.cpp line 137) before
qetLastFetch.restart() at line 167, so the stall timer is not reset to now
= 500 and keeps its old value 0. -/
theorem fetchFrames_empty_no_reset_cex :
    (LoopUser.fetchFrames (some ()) 500 ⟨[], 0⟩).1.lastFetch ≠ 500 := by
  with_unfolding_all decide

/-- C5 (amended): with a render sink present the stall timer is reset to now
whenever the pending collection is non-empty, even if no entry is removed
(every key greater than now); when the pending collection is empty the call
returns early and the stall timer keeps its old value. -/
theorem fetchFrames_stall_timer_reset (now : ℚ) (st : LoopUserState) :
    (st.qmPackets ≠ [] → (LoopUser.fetchFrames (some ()) now st).1.lastFetch = now) ∧
    (st.qmPackets = [] → (LoopUser.fetchFrames (some ()) now st).1.lastFetch = st.lastFetch) := by
  obtain ⟨l, lf⟩ := st
  cases l <;> simp [LoopUser.fetchFrames]

/-- Witness for C5 (amended): one pending entry with key 7 > now = 3, so
nothing is drained, yet the stall timer resets to 3. -/
theorem fetchFrames_stall_timer_reset_witness :
    ([((7 : ℚ), (⟨32, 7, [9]⟩ : Packet))] ≠ []) ∧
    (LoopUser.fetchFrames (some ()) 3 ⟨[(7, ⟨32, 7, [9]⟩)], 0⟩).1.lastFetch = 3 :=
  ⟨by decide, (fetchFrames_stall_timer_reset 3 ⟨[(7, ⟨32, 7, [9]⟩)], 0⟩).1 (by decide)⟩

/-- C8 counterexample: with loss probability 1.0 the draw rand() = RAND_MAX
makes DOUBLE_RAND exactly 1.0; 1.0 < 1.0 is false, so the frame is inserted
rather than discarded: addFrame with that draw inserts an entry. -/
theorem addFrame_loss_one_cex :
    (LoopUser.addFrame ⟨1, 0⟩ RAND_MAX 0 0 0 none ⟨0, 0, []⟩ ⟨[], 0⟩).1.qmPackets ≠ [] := by
  with_unfolding_all decide

/-- C8 (amended): with loss probability 1.0 every draw strictly below
RAND_MAX (DOUBLE_RAND value < 1.0) discards the frame: the state is
unchanged and no sink call is made; only the draw rand() = RAND_MAX, whose
DOUBLE_RAND value is exactly 1.0, lets the frame through. -/
theorem addFrame_loss_one_drops (s : Settings) (hloss : s.dPacketLoss = 1)
    (lossDraw delayDraw : Nat) (hk : lossDraw < RAND_MAX) (t1 t2 : ℚ)
    (ao : Option Unit) (packet : Packet) (st : LoopUserState) :
    LoopUser.addFrame s lossDraw delayDraw t1 t2 ao packet st = (st, []) := by
  have hlt : DOUBLE_RAND lossDraw < s.dPacketLoss := hloss ▸ DOUBLE_RAND_lt_one hk
  unfold LoopUser.addFrame
  rw [if_pos hlt]

/-- Witness for C8 (amended): loss probability 1.0 and draw 0: the frame is
dropped, the state is unchanged and no sink call is made. -/
theorem addFrame_loss_one_drops_witness :
    (⟨1, 5⟩ : Settings).dPacketLoss = 1 ∧ 0 < RAND_MAX ∧
    LoopUser.addFrame ⟨1, 5⟩ 0 0 0 0 (some ()) ⟨32, 7, []⟩ ⟨[], 0⟩ = (⟨[], 0⟩, []) :=
  ⟨rfl, by decide,
    addFrame_loss_one_drops ⟨1, 5⟩ rfl 0 0 (by decide) 0 0 (some ()) ⟨32, 7, []⟩ ⟨[], 0⟩⟩

/-- C9: RecordUser::addFrame with a sink present delivers the frame
immediately with its parsed sequence number and message type; with no sink
present it returns with no effect.  The model takes no loss draw, no delay
draw, no clock and no settings argument because RecordUser::addFrame reads
none of them: delivery cannot depend on the configured loss probability. -/
theorem recordUser_addFrame_direct (packet : Packet) :
    RecordUser.addFrame (some ()) packet
        = [⟨packet.flags :: packet.rest, packet.seq, (packet.flags >>> 5) &&& 7⟩] ∧
    RecordUser.addFrame none packet = [] :=
  ⟨rfl, rfl⟩

/-- C10: a surviving frame is inserted into the pending collection even when
no render device is active (the insert at Audio.cpp line 118 does not
consult g.ao), so pending entries accumulate while output is stopped;
RecordUser::addFrame with no render device returns without any effect. -/
theorem loopUser_buffers_without_sink (s : Settings) (lossDraw delayDraw : Nat)
    (t1 t2 : ℚ) (packet : Packet) (st : LoopUserState)
    (hsurv : ¬ DOUBLE_RAND lossDraw < s.dPacketLoss) :
    (LoopUser.addFrame s lossDraw delayDraw t1 t2 none packet st).1.qmPackets.length
        = st.qmPackets.length + 1 ∧
    RecordUser.addFrame none packet = [] := by
  refine ⟨?_, rfl⟩
  by_cases h2 : 100 < t2 - st.lastFetch <;>
    simp [LoopUser.addFrame, if_neg hsurv, h2, mmInsert_length]

/-- Witness for C10: loss probability 0 (draw survives), no render device:
the pending collection grows from 0 to 1 entries. -/
theorem loopUser_buffers_without_sink_witness :
    (¬ DOUBLE_RAND 0 < (⟨0, 10⟩ : Settings).dPacketLoss) ∧
    (LoopUser.addFrame ⟨0, 10⟩ 0 0 50 50 none ⟨32, 7, []⟩ ⟨[], 0⟩).1.qmPackets.length = 0 + 1 :=
  ⟨by with_unfolding_all decide,
    (loopUser_buffers_without_sink ⟨0, 10⟩ 0 0 50 50 ⟨32, 7, []⟩ ⟨[], 0⟩
      (by with_unfolding_all decide)).1⟩

/-- C6 counterexample: startOutput starts the render callback thread at
QThread::HighPriority (value 4) and startInput starts the capture callback
thread at QThread::HighestPriority (value 5), so the render priority is
strictly below the capture priority, not greater or equal. -/
theorem start_priorities_cex :
    (Audio.startOutput (resolveConst 1) choice0 ⟨none, none⟩).2 = some .HighPriority ∧
    (Audio.startInput (resolveConst 1) choice0 ⟨none, none⟩).2 = some .HighestPriority ∧
    ¬ QThreadPriority.val .HighestPriority ≤ QThreadPriority.val .HighPriority := by
  refine ⟨rfl, rfl, by decide⟩

/-- C6 (amended): whenever startOutput and startInput each start a device
callback thread, the render thread priority (HighPriority) is less than or
equal to the capture thread priority (HighestPriority) - the code elevates
capture above render, the reverse of the claimed direction. -/
theorem start_priorities_render_le_capture (ro ri : String → Option Nat)
    (so si : String) (g1 g2 : AudioGlobals) (po pi : QThreadPriority)
    (ho : (Audio.startOutput ro so g1).2 = some po)
    (hi : (Audio.startInput ri si g2).2 = some pi) :
    QThreadPriority.val po ≤ QThreadPriority.val pi := by
  unfold Audio.startOutput at ho
  unfold Audio.startInput at hi
  rcases hro : ro so with _ | d
  · simp [hro] at ho
  · rcases hri : ri si with _ | e
    · simp [hri] at hi
    · simp [hro] at ho
      simp [hri] at hi
      rw [← ho, ← hi]
      decide

/-- Witness for C6 (amended): both resolutions succeed; priority 4 ≤ 5. -/
theorem start_priorities_render_le_capture_witness :
    QThreadPriority.val .HighPriority ≤ QThreadPriority.val .HighestPriority :=
  start_priorities_render_le_capture (resolveConst 1) (resolveConst 2) choice0 choice0
    ⟨none, none⟩ ⟨none, none⟩ .HighPriority .HighestPriority rfl rfl

/-- C7 counterexample: Audio::startOutput assigns
g.ao = AudioOutputRegistrar::newFromChoice(output) unconditionally (Audio.cpp
line 203), so a failing selector does not leave the previous handle in
place: a previously active handle (instance 5) is overwritten with none. -/
theorem start_failure_overwrites_cex :
    (Audio.startOutput resolveFail choice0 ⟨some 5, none⟩).1.ao = none ∧
    (⟨some 5, none⟩ : AudioGlobals).ao ≠ none := by
  refine ⟨rfl, by decide⟩

/-- C7 (amended): when the selector fails to resolve, no device is started
(no thread priority is reported) and the process-wide handle for that
direction is set to none, overwriting whatever it was before; the failure is
observable to the caller only as an absent handle, never a fatal error (the
function is total).  The other direction handle is untouched. -/
theorem start_failure_absent_handle (ro ri : String → Option Nat)
    (so si : String) (g1 g2 : AudioGlobals)
    (ho : ro so = none) (hi : ri si = none) :
    (Audio.startOutput ro so g1).1.ao = none ∧
    (Audio.startOutput ro so g1).2 = none ∧
    (Audio.startOutput ro so g1).1.ai = g1.ai ∧
    (Audio.startInput ri si g2).1.ai = none ∧
    (Audio.startInput ri si g2).2 = none ∧
    (Audio.startInput ri si g2).1.ao = g2.ao := by
  unfold Audio.startOutput Audio.startInput
  rw [ho, hi]
  exact ⟨rfl, rfl, rfl, rfl, rfl, rfl⟩

/-- Witness for C7 (amended): a failing resolver on globals that previously
held devices 5 and 6: both directions end up absent, nothing is started. -/
theorem start_failure_absent_handle_witness :
    resolveFail choice0 = none ∧
    (Audio.startOutput resolveFail choice0 ⟨some 5, some 6⟩).1.ao = none ∧
    (Audio.startInput resolveFail choice0 ⟨some 5, some 6⟩).2 = none :=
  ⟨rfl, (start_failure_absent_handle resolveFail resolveFail choice0 choice0
      ⟨some 5, some 6⟩ ⟨some 5, some 6⟩ rfl rfl).1,
    (start_failure_absent_handle resolveFail resolveFail choice0 choice0
      ⟨some 5, some 6⟩ ⟨some 5, some 6⟩ rfl rfl).2.2.2.2.1⟩

/-- C1: in every interleaved execution of Audio::stopOutput started with an
active render device: (a) from the moment the process-wide handle is cleared
(spin and return points) g.ao stays empty, so no new strong reference can be
taken from process-wide state; (b) the destructor never runs before the
final local release; (c) stopOutput reaches its return point only with the
destructor already run, synchronously on the calling thread; and (d) the
step that destroys is exactly the final release of the local copy, taken
when that copy is the only surviving strong reference (use count 1). -/
theorem stopOutput_teardown (n : Nat) (s t : StopState)
    (hr : Reach StopStep (stopOutputInit n) s) :
    ((s.pc = .spinning ∨ s.pc = .finished) → s.gao = false) ∧
    (s.destroyed = true → s.pc = .finished) ∧
    (s.pc = .finished → s.destroyed = true) ∧
    (StopStep s t → s.destroyed = false → t.destroyed = true →
      s.localRef = true ∧ s.count = 1 ∧ s.pc = .spinning ∧ t.pc = .finished) := by
  have hinv := stopInv_reach hr
  obtain ⟨pc, gao, localRef, otherRefs, destroyed⟩ := s
  refine ⟨?_, ?_, ?_, ?_⟩
  · cases pc <;> simp_all [StopInv]
  · cases pc <;> simp_all [StopInv]
  · cases pc <;> simp_all [StopInv]
  · intro hstep hd htd
    cases hstep with
    | copy h => cases pc <;> simp_all [StopInv]
    | clear h => cases pc <;> simp_all [StopInv]
    | spinYield h hl hc => simp_all
    | release h hc => cases pc <;> simp_all [StopInv, StopState.count]
    | envAcquire h => simp_all
    | envDup h => simp_all
    | envRelease h => cases pc <;> simp_all [StopInv]

/-- Witness for C1: from one background reference, the trace copy, clear,
background release, then the exit of the spin loop: the final release runs
from the spin state at use count 1 and lands in the finished state with the
destructor run. -/
theorem stopOutput_teardown_witness :
    (⟨.spinning, false, true, 0, false⟩ : StopState).localRef = true ∧
    (⟨.spinning, false, true, 0, false⟩ : StopState).count = 1 ∧
    (⟨.spinning, false, true, 0, false⟩ : StopState).pc = .spinning ∧
    (⟨.finished, false, false, 0, true⟩ : StopState).pc = .finished :=
  (stopOutput_teardown 1 ⟨.spinning, false, true, 0, false⟩ ⟨.finished, false, false, 0, true⟩
      (Reach.tail _ _ _
        (Reach.tail _ _ _
          (Reach.tail _ _ _ (Reach.refl _) (StopStep.copy ⟨.preCopy, true, false, 1, false⟩ rfl))
          (StopStep.clear ⟨.preClear, true, true, 1, false⟩ rfl))
        (StopStep.envRelease ⟨.spinning, false, true, 1, false⟩ (by decide)))).2.2.2
    (StopStep.release ⟨.spinning, false, true, 0, false⟩ rfl (Or.inr rfl)) rfl rfl

/-- C2: in every interleaved execution of the combined Audio::stop started
with both devices active: a step that clears either process-wide handle runs
only when the control thread already holds local strong references to both
devices; the step that destroys the capture device is the first local
release, taken only when both local references are simultaneously the sole
surviving references (both use counts 1) with both process-wide handles
cleared; and the render device is destroyed only at use count 1, after the
capture device destructor has already run. -/
theorem stop_both_teardown (n m : Nat) (s t : StopAllState)
    (hr : Reach StopAllStep (stopAllInit n m) s) (hstep : StopAllStep s t) :
    (((s.gai = true ∧ t.gai = false) ∨ (s.gao = true ∧ t.gao = false)) →
        s.lai = true ∧ s.lao = true) ∧
    (s.dIn = false → t.dIn = true →
        s.countI = 1 ∧ s.countO = 1 ∧ s.lai = true ∧ s.lao = true ∧
        s.gai = false ∧ s.gao = false) ∧
    (s.dOut = false → t.dOut = true →
        s.countO = 1 ∧ s.lao = true ∧ s.dIn = true) := by
  have hinv := stopAllInv_reach hr
  obtain ⟨pc, gai, gao, lai, lao, othersI, othersO, dIn, dOut⟩ := s
  cases hstep with
  | copyAi h => cases pc <;> simp_all [StopAllInv]
  | copyAo h => cases pc <;> simp_all [StopAllInv]
  | clearAo h => cases pc <;> simp_all [StopAllInv]
  | clearAi h => cases pc <;> simp_all [StopAllInv]
  | spinYield h hc => cases pc <;> simp_all [StopAllInv]
  | releaseAi h hi ho =>
      cases pc <;> simp_all [StopAllInv, StopAllState.countI, StopAllState.countO]
  | releaseAo h =>
      cases pc <;> simp_all [StopAllInv, StopAllState.countI, StopAllState.countO]
  | envAcquireI h => cases pc <;> simp_all [StopAllInv]
  | envAcquireO h => cases pc <;> simp_all [StopAllInv]
  | envDupI h => cases pc <;> simp_all [StopAllInv]
  | envDupO h => cases pc <;> simp_all [StopAllInv]
  | envReleaseI h => cases pc <;> simp_all [StopAllInv]
  | envReleaseO h => cases pc <;> simp_all [StopAllInv]

/-- Witness for C2: with no outstanding background references, the trace
copy ai, copy ao, clear ao, clear ai reaches the spin state; the first local
release (of ai) happens with both use counts 1, both locals held and both
globals cleared. -/
theorem stop_both_teardown_witness :
    (⟨.spinning, false, false, true, true, 0, 0, false, false⟩ : StopAllState).countI = 1 ∧
    (⟨.spinning, false, false, true, true, 0, 0, false, false⟩ : StopAllState).countO = 1 ∧
    (⟨.spinning, false, false, true, true, 0, 0, false, false⟩ : StopAllState).lai = true ∧
    (⟨.spinning, false, false, true, true, 0, 0, false, false⟩ : StopAllState).lao = true ∧
    (⟨.spinning, false, false, true, true, 0, 0, false, false⟩ : StopAllState).gai = false ∧
    (⟨.spinning, false, false, true, true, 0, 0, false, false⟩ : StopAllState).gao = false :=
  (stop_both_teardown 0 0 ⟨.spinning, false, false, true, true, 0, 0, false, false⟩
      ⟨.preResetAo, false, false, false, true, 0, 0, true, false⟩
      (Reach.tail _ _ _
        (Reach.tail _ _ _
          (Reach.tail _ _ _
            (Reach.tail _ _ _ (Reach.refl _)
              (StopAllStep.copyAi ⟨.preCopyAi, true, true, false, false, 0, 0, false, false⟩ rfl))
            (StopAllStep.copyAo ⟨.preCopyAo, true, true, true, false, 0, 0, false, false⟩ rfl))
          (StopAllStep.clearAo ⟨.preClearAo, true, true, true, true, 0, 0, false, false⟩ rfl))
        (StopAllStep.clearAi ⟨.preClearAi, true, false, true, true, 0, 0, false, false⟩ rfl))
      (StopAllStep.releaseAi ⟨.spinning, false, false, true, true, 0, 0, false, false⟩ rfl
        (Or.inr rfl) (Or.inr rfl))).2.1 rfl rfl
